import Mathlib

/-!
Verification of the generated Wwise ID table
(`src/Assets/StreamingAssets/Audio/GeneratedSoundBanks/Wwise_IDs.h`).

The header declares, inside nested C++ namespaces, a fixed set of
`static const AkUniqueID` constants.  We embed it as a flat list of
entries, each carrying the fully qualified namespace path of the
constant together with its numeric value, exactly as written in the
header.
-/

/-- One `static const AkUniqueID` declaration of the header: the fully
qualified namespace path of the constant and its numeric value. -/
structure Entry where
  path : List String
  id : Nat
deriving DecidableEq, Repr

/-- The complete constant table of `Wwise_IDs.h`, in header order. -/
def wwiseConsts : List Entry :=
  [ ⟨["AK", "EVENTS", "PAUSE_DOORKNOCK"], 1900919716⟩,
    ⟨["AK", "EVENTS", "PLAY_CALIBRATION"], 9035486⟩,
    ⟨["AK", "EVENTS", "PLAY_DOOR_OPEN"], 1660008929⟩,
    ⟨["AK", "EVENTS", "PLAY_DOORKNOCK"], 543223178⟩,
    ⟨["AK", "EVENTS", "PLAY_E_FOOTSTEPS_WETDIRT"], 3953117089⟩,
    ⟨["AK", "EVENTS", "PLAY_ENEMY_DETECT"], 643576792⟩,
    ⟨["AK", "EVENTS", "PLAY_ENEMY_ENTRY"], 192556355⟩,
    ⟨["AK", "EVENTS", "PLAY_ENEMYBREATH"], 1738249236⟩,
    ⟨["AK", "EVENTS", "PLAY_LEVER"], 3196500978⟩,
    ⟨["AK", "EVENTS", "PLAY_MUSIC"], 2932040671⟩,
    ⟨["AK", "EVENTS", "PLAY_OUTRO"], 431014199⟩,
    ⟨["AK", "EVENTS", "PLAY_P_FOOTSTEPS"], 1896114910⟩,
    ⟨["AK", "STATES", "AFFECTED_STATES", "GROUP"], 2719039974⟩,
    ⟨["AK", "STATES", "AFFECTED_STATES", "STATE", "EXCITE"], 2286778635⟩,
    ⟨["AK", "STATES", "AFFECTED_STATES", "STATE", "MODERATE"], 1747842238⟩,
    ⟨["AK", "STATES", "AFFECTED_STATES", "STATE", "NONE"], 748895195⟩,
    ⟨["AK", "STATES", "AFFECTED_STATES", "STATE", "RELAX"], 3551080421⟩,
    ⟨["AK", "SWITCHES", "P_FOOTSTEP", "GROUP"], 3806491964⟩,
    ⟨["AK", "SWITCHES", "P_FOOTSTEP", "SWITCH", "DIRT"], 2195636714⟩,
    ⟨["AK", "SWITCHES", "P_FOOTSTEP", "SWITCH", "WOOD"], 2058049674⟩,
    ⟨["AK", "BANKS", "INIT"], 1355168291⟩,
    ⟨["AK", "BANKS", "MAIN"], 3161908922⟩,
    ⟨["AK", "BUSSES", "MASTER_AUDIO_BUS"], 3803692087⟩,
    ⟨["AK", "AUDIO_DEVICES", "NO_OUTPUT"], 2317455096⟩,
    ⟨["AK", "AUDIO_DEVICES", "SYSTEM"], 3859886410⟩ ]

/-- The category (enclosing namespace path) of a constant: its qualified
path without the final identifier. -/
def categoryOf (e : Entry) : List String :=
  e.path.dropLast

/-- The symbolic name of a constant: the final component of its
qualified path. -/
def nameOf (e : Entry) : String :=
  e.path.getLastD ""

/-- ASCII lowercasing of a byte, as done by the authoring tool before
hashing a name. -/
def asciiLower (n : Nat) : Nat :=
  if 65 ≤ n ∧ n ≤ 90 then n + 32 else n

/-- Modelled from the spec: the "stable hash of the human-readable name"
applied by the authoring tool is not part of src/.  It is the FNV-1
32-bit hash of the lowercased name: starting from the offset basis
2166136261, each byte multiplies the state by the prime 16777619
(mod 2 ^ 32) and then XORs the lowercased byte in. -/
def akHash (s : String) : Nat :=
  s.toList.foldl
    (fun h c => ((h * 16777619) % 2 ^ 32) ^^^ asciiLower c.toNat)
    2166136261

/-- Modelled from the spec: the authoring-time human-readable name of
each constant is not part of src/.  A `GROUP` constant carries the name
of its enclosing state or switch group; the master bus is named
"Master Audio Bus" in the authoring project; every other constant is
named by its own symbol. -/
def humanName (p : List String) : String :=
  match p with
  | ["AK", "BUSSES", "MASTER_AUDIO_BUS"] => "Master Audio Bus"
  | _ =>
    match p.reverse with
    | "GROUP" :: g :: _ => g
    | n :: _ => n
    | [] => ""

/-- C1: a single hash function maps every entry's human-readable name to
its id, so in particular any two entries with the same name have the
same id. -/
theorem stable_hash_of_name :
    (∀ e ∈ wwiseConsts, e.id = akHash (humanName e.path)) ∧
    (∀ e₁ ∈ wwiseConsts, ∀ e₂ ∈ wwiseConsts,
      humanName e₁.path = humanName e₂.path → e₁.id = e₂.id) := by
  constructor
  · decide
  · intro e₁ h₁ e₂ h₂ hn
    have hd : ∀ e ∈ wwiseConsts, e.id = akHash (humanName e.path) := by decide
    rw [hd e₁ h₁, hd e₂ h₂, hn]

/-- Witness for `stable_hash_of_name` at a concrete entry of the
table. -/
theorem stable_hash_of_name_witness :
    (Entry.mk ["AK", "BUSSES", "MASTER_AUDIO_BUS"] 3803692087).id =
      akHash (humanName ["AK", "BUSSES", "MASTER_AUDIO_BUS"]) :=
  stable_hash_of_name.1 ⟨["AK", "BUSSES", "MASTER_AUDIO_BUS"], 3803692087⟩
    (by decide)

/-- C2: within every category (enclosing namespace) of the table, the
names of the entries are pairwise distinct. -/
theorem names_unique_within_category :
    wwiseConsts.Pairwise
      (fun a b => categoryOf a = categoryOf b → nameOf a ≠ nameOf b) := by
  decide

/-- The top-level categories of the table, in header order. -/
def topCategories : List String :=
  ["EVENTS", "STATES", "SWITCHES", "BANKS", "BUSSES", "AUDIO_DEVICES"]

/-- A qualified path has the shape the header exhibits: a flat constant
directly under EVENTS, BANKS, BUSSES or AUDIO_DEVICES, or a per-group
GROUP constant under STATES or SWITCHES, or a per-value constant under a
group's STATE or SWITCH namespace. -/
def wellFormedPath (p : List String) : Bool :=
  match p with
  | ["AK", c, _] => ["EVENTS", "BANKS", "BUSSES", "AUDIO_DEVICES"].contains c
  | ["AK", s, _, "GROUP"] => s == "STATES" || s == "SWITCHES"
  | ["AK", "STATES", _, "STATE", _] => true
  | ["AK", "SWITCHES", _, "SWITCH", _] => true
  | _ => false

/-- Every per-value constant's group also declares a GROUP constant in
the table. -/
def groupHasGroupId (e : Entry) : Bool :=
  match e.path with
  | ["AK", s, g, _, _] =>
    wwiseConsts.any (fun e₂ => e₂.path == ["AK", s, g, "GROUP"])
  | _ => true

/-- C3: the table consists of exactly the categories EVENTS, STATES,
SWITCHES, BANKS, BUSSES and AUDIO_DEVICES; STATES and SWITCHES are
nested per group, each group holding a GROUP id plus one id per value,
and the other four are flat lists of named ids. -/
theorem table_structure :
    (∀ e ∈ wwiseConsts, wellFormedPath e.path = true) ∧
    (∀ e ∈ wwiseConsts, e.path.getD 1 "" ∈ topCategories) ∧
    (∀ c ∈ topCategories, ∃ e ∈ wwiseConsts, e.path.getD 1 "" = c) ∧
    (∀ e ∈ wwiseConsts, groupHasGroupId e = true) := by
  refine ⟨by decide, by decide, ?_, by decide⟩
  decide

/-- Witness for `table_structure` at a concrete entry and category. -/
theorem table_structure_witness :
    wellFormedPath
      (Entry.mk ["AK", "STATES", "AFFECTED_STATES", "STATE", "RELAX"]
        3551080421).path = true :=
  table_structure.1
    ⟨["AK", "STATES", "AFFECTED_STATES", "STATE", "RELAX"], 3551080421⟩
    (by decide)

/-- Lookup of a qualified name in a table: the id of the first entry
with that path, if any. -/
def lookupIn (table : List Entry) (p : List String) : Option Nat :=
  (table.find? (fun e => e.path == p)).map Entry.id

/-- Lookup of a qualified name in the generated table. -/
def lookup (p : List String) : Option Nat :=
  lookupIn wwiseConsts p

/-- C5: lookup of a name in the table succeeds and returns its id
exactly when the name is present: every name in the table resolves to
its id, and a name resolves to some id if and only if it is one of the
table's names — absence is the only failure mode. -/
theorem lookup_iff_present :
    (∀ e ∈ wwiseConsts, lookup e.path = some e.id) ∧
    (∀ p : List String,
      (lookup p).isSome ↔ p ∈ wwiseConsts.map Entry.path) := by
  constructor
  · decide
  · intro p
    simp only [lookup, lookupIn, Option.isSome_map', List.find?_isSome,
      List.mem_map, beq_iff_eq]

/-- Witness for `lookup_iff_present` at a concrete entry of the
table. -/
theorem lookup_iff_present_witness :
    lookup (Entry.mk ["AK", "EVENTS", "PLAY_OUTRO"] 431014199).path =
      some (Entry.mk ["AK", "EVENTS", "PLAY_OUTRO"] 431014199).id :=
  lookup_iff_present.1 ⟨["AK", "EVENTS", "PLAY_OUTRO"], 431014199⟩
    (by decide)

/-- Reading a constant, as an operation on the table state: it returns
the looked-up id together with the (unchanged) table. -/
def readConst (table : List Entry) (p : List String) :
    Option Nat × List Entry :=
  (lookupIn table p, table)

/-- C6: reading a constant has no side effect: the table after a read is
the table before it, every entry keeps its name and id, and the read
returns exactly what lookup returns. -/
theorem read_is_pure :
    ∀ (table : List Entry) (p : List String),
      (readConst table p).2 = table ∧
      (readConst wwiseConsts p).1 = lookup p :=
  fun _ _ => ⟨rfl, rfl⟩

/-- Modelled from the spec: the authoring project the table is generated
from is not part of src/; it is the per-category lists of human-readable
asset names, with STATES and SWITCHES nested per group. -/
structure AuthoringProject where
  events : List String
  stateGroups : List (String × List String)
  switchGroups : List (String × List String)
  banks : List String
  busses : List String
  devices : List String
deriving DecidableEq

/-- The C++ symbol generated for an authoring name: alphanumeric
characters are uppercased and every other character becomes an
underscore. -/
def symbolOf (s : String) : String :=
  String.mk (s.toList.map (fun c => if c.isAlphanum then c.toUpper else '_'))

/-- Modelled from the spec: the generation step is not part of src/; it
maps each named asset of the authoring project to a constant whose
qualified path places it in its category's namespace (nested per group
for states and switches) and whose value is the stable hash of its
name. -/
def generate (p : AuthoringProject) : List Entry :=
  (p.events.map fun n => ⟨["AK", "EVENTS", symbolOf n], akHash n⟩) ++
  (p.stateGroups.map (fun g =>
      Entry.mk ["AK", "STATES", symbolOf g.1, "GROUP"] (akHash g.1) ::
      g.2.map fun v =>
        ⟨["AK", "STATES", symbolOf g.1, "STATE", symbolOf v], akHash v⟩)).flatten ++
  (p.switchGroups.map (fun g =>
      Entry.mk ["AK", "SWITCHES", symbolOf g.1, "GROUP"] (akHash g.1) ::
      g.2.map fun v =>
        ⟨["AK", "SWITCHES", symbolOf g.1, "SWITCH", symbolOf v], akHash v⟩)).flatten ++
  (p.banks.map fun n => ⟨["AK", "BANKS", symbolOf n], akHash n⟩) ++
  (p.busses.map fun n => ⟨["AK", "BUSSES", symbolOf n], akHash n⟩) ++
  (p.devices.map fun n => ⟨["AK", "AUDIO_DEVICES", symbolOf n], akHash n⟩)

/-- Modelled from the spec: the authoring project behind this
repository's table, with the asset names whose hashes the header
records. -/
def cradleProject : AuthoringProject where
  events :=
    ["PAUSE_DOORKNOCK", "PLAY_CALIBRATION", "PLAY_DOOR_OPEN",
     "PLAY_DOORKNOCK", "PLAY_E_FOOTSTEPS_WETDIRT", "PLAY_ENEMY_DETECT",
     "PLAY_ENEMY_ENTRY", "PLAY_ENEMYBREATH", "PLAY_LEVER", "PLAY_MUSIC",
     "PLAY_OUTRO", "PLAY_P_FOOTSTEPS"]
  stateGroups :=
    [("AFFECTED_STATES", ["EXCITE", "MODERATE", "NONE", "RELAX"])]
  switchGroups := [("P_FOOTSTEP", ["DIRT", "WOOD"])]
  banks := ["INIT", "MAIN"]
  busses := ["Master Audio Bus"]
  devices := ["NO_OUTPUT", "SYSTEM"]

/-- C7: the generation step is deterministic — equal authoring projects
generate identical tables — and generating from this repository's
authoring project reproduces the header's table exactly. -/
theorem generation_deterministic :
    (∀ p q : AuthoringProject, p = q → generate p = generate q) ∧
    generate cradleProject = wwiseConsts := by
  refine ⟨fun p q h => by rw [h], ?_⟩
  decide

/-- Witness for `generation_deterministic`: regenerating from the same
project gives the same table. -/
theorem generation_deterministic_witness :
    generate cradleProject = generate cradleProject :=
  generation_deterministic.1 cradleProject cradleProject rfl

/-- A schedule of concurrent reads: each operation is a thread index
together with the qualified name it reads.  Running a schedule returns
each operation's result and the (unchanged) table. -/
def runSchedule (table : List Entry) (sched : List (Nat × List String)) :
    List (Nat × List String × Option Nat) × List Entry :=
  (sched.map fun op => (op.1, op.2, lookupIn table op.2), table)

/-- C8: any number of threads may read the table concurrently in any
interleaving: running any schedule of reads leaves the table unchanged,
and any two reads of the same name — whatever threads issue them and in
whatever order — return the same id. -/
theorem concurrent_reads_agree :
    (∀ (table : List Entry) (sched : List (Nat × List String)),
      (runSchedule table sched).2 = table) ∧
    (∀ (table : List Entry) (sched : List (Nat × List String))
       (a b : Nat × List String × Option Nat),
       a ∈ (runSchedule table sched).1 →
       b ∈ (runSchedule table sched).1 →
       a.2.1 = b.2.1 → a.2.2 = b.2.2) := by
  refine ⟨fun _ _ => rfl, ?_⟩
  intro table sched a b ha hb hp
  simp only [runSchedule, List.mem_map] at ha hb
  obtain ⟨x, _, rfl⟩ := ha
  obtain ⟨y, _, rfl⟩ := hb
  have hxy : x.2 = y.2 := hp
  show lookupIn table x.2 = lookupIn table y.2
  rw [hxy]

/-- Witness for `concurrent_reads_agree`: two threads reading the same
bank name in one schedule observe the same id. -/
theorem concurrent_reads_agree_witness :
    ((1, ["AK", "BANKS", "MAIN"], lookupIn wwiseConsts ["AK", "BANKS", "MAIN"]) :
      Nat × List String × Option Nat).2.2 =
    ((2, ["AK", "BANKS", "MAIN"], lookupIn wwiseConsts ["AK", "BANKS", "MAIN"]) :
      Nat × List String × Option Nat).2.2 :=
  concurrent_reads_agree.2 wwiseConsts
    [(1, ["AK", "BANKS", "MAIN"]), (2, ["AK", "BANKS", "MAIN"])]
    (1, ["AK", "BANKS", "MAIN"], lookupIn wwiseConsts ["AK", "BANKS", "MAIN"])
    (2, ["AK", "BANKS", "MAIN"], lookupIn wwiseConsts ["AK", "BANKS", "MAIN"])
    (by decide) (by decide) rfl

/-- C4: every declared constant of the table is a 32-bit unsigned
integer value, in the range 0 to 2 ^ 32 - 1 inclusive. -/
theorem ids_are_uint32 :
    ∀ e ∈ wwiseConsts, e.id < 2 ^ 32 := by
  decide

/-- Witness for `ids_are_uint32` at a concrete entry of the table. -/
theorem ids_are_uint32_witness :
    (Entry.mk ["AK", "EVENTS", "PLAY_MUSIC"] 2932040671).id < 2 ^ 32 :=
  ids_are_uint32 ⟨["AK", "EVENTS", "PLAY_MUSIC"], 2932040671⟩ (by decide)

/-- C9, as stated, is false: the header declares 25 constants, not 22. -/
theorem not_22_constants :
    wwiseConsts.length = 25 ∧ ¬ wwiseConsts.length = 22 := by
  decide

/-- C9 (amended): every one of the 25 declared constants carries a
globally unique value: the ids are pairwise distinct even across
categories. -/
theorem ids_globally_distinct :
    wwiseConsts.length = 25 ∧ (wwiseConsts.map Entry.id).Nodup := by
  decide

/-- C10: no declared constant of the table equals 0, the sentinel
`AK_INVALID_UNIQUE_ID` of the middleware. -/
theorem ids_nonzero :
    ∀ e ∈ wwiseConsts, e.id ≠ 0 := by
  decide

/-- Witness for `ids_nonzero` at a concrete entry of the table. -/
theorem ids_nonzero_witness :
    (Entry.mk ["AK", "BANKS", "INIT"] 1355168291).id ≠ 0 :=
  ids_nonzero ⟨["AK", "BANKS", "INIT"], 1355168291⟩ (by decide)
